import Mathlib

/-!
Shallow embedding of the dapjs transport layer (HID and USB backends).

Bytes are modelled as `Nat` entries of a `List`; JavaScript `Buffer` /
`Uint8Array` / `ArrayBuffer` payloads become plain byte lists.  Promises
become `Except String` results: `resolve` is `.ok`, `reject` (and a
synchronous `throw` reaching the promise machinery) is `.error`.  The
opaque native drivers (node-hid, node-usb) are passed in as functions,
as the spec directs for testability.
-/

namespace Dapjs

/-- Shared packet-size constant (`const PACKET_SIZE = 64` in both backends). -/
def PACKET_SIZE : Nat := 64

/-! ## HID backend (hid transport source) -/

namespace HID

/-- State of a `HID` instance: the platform string obtained from
`os.platform()`, the construction-time path, and the device handle
(`null` modelled as `none`; the opaque handle as a `Nat` tag). -/
structure State where
  os : String
  path : String
  device : Option Nat
deriving DecidableEq, Repr

/-- The byte array `HID.write` builds before handing it to
`this.device.write`: convert the input to a flat array, right-pad with
zeros while shorter than `PACKET_SIZE`, and on `win32` prepend one
throwaway zero byte. -/
def writeBuffer (os : String) (data : List Nat) : List Nat :=
  let array := data ++ List.replicate (PACKET_SIZE - data.length) 0
  if os == "win32" then 0 :: array else array

/-- `HID.write`: builds the padded (and possibly prepended) buffer and
calls the driver's synchronous `write`.  The byte count the driver
returns is ignored (the check is commented out in the source); a
synchronous throw from the driver rejects the promise. -/
def write (st : State) (data : List Nat)
    (deviceWrite : List Nat → Except String Nat) : Except String Unit :=
  match deviceWrite (writeBuffer st.os data) with
  | .error e => .error e
  | .ok _ => .ok ()

/-- `HID.close`: if a device handle is present, close it and null the
field; in all cases resolve. -/
def close (st : State) : Except String State :=
  .ok { st with device := none }

end HID

/-! ## USB backend (src/transport/usb.ts) -/

namespace USB

/-- Default interface class filter (`const DEFAULT_CLASS = 0xFF`). -/
def DEFAULT_CLASS : Nat := 0xFF

/-- `const GET_REPORT = 0x01`. -/
def GET_REPORT : Nat := 0x01
/-- `const SET_REPORT = 0x09`. -/
def SET_REPORT : Nat := 0x09
/-- `const OUT_REPORT = 0x200`. -/
def OUT_REPORT : Nat := 0x200
/-- `const IN_REPORT = 0x100`. -/
def IN_REPORT : Nat := 0x100

/-- Standard libusb constant imported from the `usb` package: request
type bits for a class request. -/
def LIBUSB_REQUEST_TYPE_CLASS : Nat := 0x20
/-- Standard libusb constant imported from the `usb` package: recipient
bits selecting the interface. -/
def LIBUSB_RECIPIENT_INTERFACE : Nat := 0x01
/-- Standard libusb constant imported from the `usb` package:
device-to-host direction bit. -/
def LIBUSB_ENDPOINT_IN : Nat := 0x80
/-- Standard libusb constant imported from the `usb` package:
host-to-device direction (no bit set). -/
def LIBUSB_ENDPOINT_OUT : Nat := 0x00

/-- A USB endpoint descriptor as the backend reads it: its `direction`
string (`"in"` or `"out"`) and its `wMaxPacketSize`. -/
structure Endpoint where
  direction : String
  wMaxPacketSize : Nat
deriving DecidableEq, Repr

/-- A USB interface as the backend reads it: the descriptor's
`bInterfaceClass`, the interface number (the `interface` property the
code reads as `this.interface.interface`), and its endpoint list. -/
structure Interface where
  bInterfaceClass : Nat
  interface : Nat
  endpoints : List Endpoint
deriving DecidableEq, Repr

/-- A USB device as the backend reads it: its advertised interfaces and
the outcome of `setConfiguration(1, cb)` (the `error` handed to the
callback, `none` on success). -/
structure Device where
  interfaces : List Interface
  setConfigError : Option String
deriving DecidableEq, Repr

/-- State of a `USB` instance after `open` has run: whether the device
handle is open, the selected interface, and the cached `endpointIn` /
`endpointOut` references (`null` modelled as `none`). -/
structure State where
  deviceOpen : Bool
  iface : Interface
  endpointIn : Option Endpoint
  endpointOut : Option Endpoint
deriving DecidableEq, Repr

/-- One step of the `forEach` loop of `USB.open`: an `"in"`-direction
endpoint overwrites the `endpointIn` slot, every other endpoint
overwrites the `endpointOut` slot. -/
def epStep (acc : Option Endpoint × Option Endpoint) (ep : Endpoint) :
    Option Endpoint × Option Endpoint :=
  if ep.direction == "in" then (some ep, acc.2) else (acc.1, some ep)

/-- The `forEach` loop of `USB.open` over the selected interface's
endpoints, starting from the freshly nulled `(endpointIn, endpointOut)`
pair. -/
def selectEndpoints (endpoints : List Endpoint) :
    Option Endpoint × Option Endpoint :=
  endpoints.foldl epStep (none, none)

/-- `USB.open`: reset the endpoint fields, open the device, select
configuration 1 (rejecting on its error), filter the interfaces by the
configured class, throw `"No HID interfaces found."` when none match,
take the first match and walk its endpoints.  (Named `openDevice`
because `open` is reserved in Lean.) -/
def openDevice (device : Device) (interfaceClass : Nat) : Except String State :=
  match device.setConfigError with
  | some e => .error e
  | none =>
    match device.interfaces.filter
        (fun iface => iface.bInterfaceClass == interfaceClass) with
    | [] => .error "No HID interfaces found."
    | iface :: _ =>
      .ok { deviceOpen := true, iface := iface,
            endpointIn := (selectEndpoints iface.endpoints).1,
            endpointOut := (selectEndpoints iface.endpoints).2 }

/-- `USB.close`: unconditionally close the device handle and resolve;
the cached interface and endpoint fields are left untouched. -/
def close (st : State) : Except String State :=
  .ok { st with deviceOpen := false }

/-- `USB.sliceBuffer(data, packetSize)`: computes
`length = Math.min(arrayBuffer.byteLength, packetSize)` and returns
`arrayBuffer.slice(length)` — JavaScript `ArrayBuffer.slice` with a
single argument keeps the bytes FROM that index to the end. -/
def sliceBuffer (data : List Nat) (packetSize : Nat) : List Nat :=
  let length := min data.length packetSize
  data.drop length

/-- The single driver call a `read` or `write` issues: a bulk/interrupt
transfer on a discovered endpoint, or a `controlTransfer` with its
`bmRequestType`, `bRequest`, `wValue`, `wIndex` and data stage / length. -/
inductive Request where
  | inTransfer (length : Nat)
  | outTransfer (buffer : List Nat)
  | controlIn (bmRequestType bRequest wValue wIndex length : Nat)
  | controlOut (bmRequestType bRequest wValue wIndex : Nat) (buffer : List Nat)
deriving DecidableEq, Repr

/-- Whether a request goes through a discovered bulk/interrupt endpoint. -/
def Request.isEndpointTransfer : Request → Bool
  | .inTransfer _ => true
  | .outTransfer _ => true
  | _ => false

/-- Whether a request is a control transfer on the default pipe. -/
def Request.isControlTransfer : Request → Bool
  | .controlIn _ _ _ _ _ => true
  | .controlOut _ _ _ _ _ => true
  | _ => false

/-- The driver call `USB.read` issues: a transfer of `wMaxPacketSize`
bytes on `endpointIn` when it exists, otherwise a `GET_REPORT` /
`IN_REPORT` control transfer of `PACKET_SIZE` bytes addressed to the
selected interface. -/
def readCall (st : State) : Request :=
  match st.endpointIn with
  | some ep => .inTransfer ep.wMaxPacketSize
  | none =>
    .controlIn
      (LIBUSB_ENDPOINT_IN ||| LIBUSB_REQUEST_TYPE_CLASS |||
        LIBUSB_RECIPIENT_INTERFACE)
      GET_REPORT IN_REPORT st.iface.interface PACKET_SIZE

/-- `USB.read`: issue the read's driver call; reject with the driver's
error, otherwise wrap the returned buffer (`bufferToDataView` is a
zero-copy byte view, modelled as the identity on the byte list). -/
def read (st : State) (driver : Request → Except String (List Nat)) :
    Except String (List Nat) :=
  match driver (readCall st) with
  | .error e => .error e
  | .ok data => .ok data

/-- The driver call `USB.write` issues: the payload sliced by
`sliceBuffer` to the endpoint's `wMaxPacketSize` and sent on
`endpointOut` when it exists, otherwise sliced to `PACKET_SIZE` and sent
as a `SET_REPORT` / `OUT_REPORT` control transfer to the interface. -/
def writeCall (st : State) (data : List Nat) : Request :=
  match st.endpointOut with
  | some ep => .outTransfer (sliceBuffer data ep.wMaxPacketSize)
  | none =>
    .controlOut
      (LIBUSB_ENDPOINT_OUT ||| LIBUSB_REQUEST_TYPE_CLASS |||
        LIBUSB_RECIPIENT_INTERFACE)
      SET_REPORT OUT_REPORT st.iface.interface
      (sliceBuffer data PACKET_SIZE)

/-- `USB.write`: issue the write's driver call; reject with the driver's
error, otherwise resolve. -/
def write (st : State) (data : List Nat)
    (driver : Request → Except String Unit) : Except String Unit :=
  match driver (writeCall st data) with
  | .error e => .error e
  | .ok _ => .ok ()

/-- One operation of a session: a `read`, or a `write` of a payload. -/
inductive Op where
  | read
  | write (data : List Nat)
deriving DecidableEq, Repr

/-- The driver calls a sequence of reads and writes issues.  `read` and
`write` never assign to `endpointIn`, `endpointOut` or `interface`, so
every operation of the session sees the state fixed at `open`. -/
def sessionCalls (st : State) (ops : List Op) : List Request :=
  ops.map fun op =>
    match op with
    | .read => readCall st
    | .write data => writeCall st data

end USB

/-! ## Helper lemmas -/

/-- Each direction slot of the `forEach` loop ends up holding the LAST
endpoint of that direction in declaration order: `"in"`-direction
endpoints keep overwriting `endpointIn`, all others keep overwriting
`endpointOut`. -/
theorem selectEndpoints_eq (eps : List USB.Endpoint) :
    USB.selectEndpoints eps =
      ((eps.filter (fun e => e.direction == "in")).getLast?,
       (eps.filter (fun e => !(e.direction == "in"))).getLast?) := by
  induction eps using List.reverseRecOn with
  | nil => rfl
  | append_singleton eps ep ih =>
    rw [USB.selectEndpoints, List.foldl_append, List.foldl_cons, List.foldl_nil,
      ← USB.selectEndpoints, ih]
    by_cases h : ep.direction == "in"
    · simp [USB.epStep, h, List.filter_append]
    · simp [USB.epStep, h, List.filter_append]

/-- Unfolding a successful `USB.open`: the resulting state is open and
its endpoint fields are the `forEach` result over the selected
interface's endpoints. -/
theorem openDevice_ok (device : USB.Device) (c : Nat) (st : USB.State)
    (h : USB.openDevice device c = .ok st) :
    st.deviceOpen = true ∧
    st.endpointIn = (USB.selectEndpoints st.iface.endpoints).1 ∧
    st.endpointOut = (USB.selectEndpoints st.iface.endpoints).2 := by
  unfold USB.openDevice at h
  split at h
  · exact absurd h (by simp)
  · split at h
    · exact absurd h (by simp)
    · injection h with h
      subst h
      exact ⟨rfl, rfl, rfl⟩

/-- The buffer `HID.write` hands to the driver on a non-Windows
platform is the payload right-padded with zeros to `PACKET_SIZE`. -/
theorem writeBuffer_not_win (os : String) (data : List Nat) (hos : os ≠ "win32") :
    HID.writeBuffer os data = data ++ List.replicate (PACKET_SIZE - data.length) 0 := by
  simp [HID.writeBuffer, hos]

/-! ## Claim theorems -/

/-- C2.  HID write padding: for every payload shorter than 64 bytes, on
a non-Windows platform the buffer submitted to the driver has length
exactly 64, its first bytes are the payload in order, and every byte
past the payload length is zero. -/
theorem hid_write_padding (os : String) (data : List Nat)
    (hos : os ≠ "win32") (hlen : data.length < 64) :
    (HID.writeBuffer os data).length = 64 ∧
    (HID.writeBuffer os data).take data.length = data ∧
    (HID.writeBuffer os data).drop data.length =
      List.replicate (64 - data.length) 0 := by
  rw [writeBuffer_not_win os data hos]
  refine ⟨?_, ?_, ?_⟩
  · simp [PACKET_SIZE]
    omega
  · exact List.take_left data _
  · rw [List.drop_left]
    rfl

/-- C2 witness: the 10-byte payload scenario — the driver receives a
64-byte buffer of the 10 original bytes followed by 54 zero bytes. -/
theorem hid_write_padding_witness :
    ("linux" ≠ "win32") ∧
    ([1, 2, 3, 4, 5, 6, 7, 8, 9, 10] : List Nat).length < 64 ∧
    ((HID.writeBuffer "linux" [1, 2, 3, 4, 5, 6, 7, 8, 9, 10]).length = 64 ∧
     (HID.writeBuffer "linux" [1, 2, 3, 4, 5, 6, 7, 8, 9, 10]).take
        ([1, 2, 3, 4, 5, 6, 7, 8, 9, 10] : List Nat).length =
       [1, 2, 3, 4, 5, 6, 7, 8, 9, 10] ∧
     (HID.writeBuffer "linux" [1, 2, 3, 4, 5, 6, 7, 8, 9, 10]).drop
        ([1, 2, 3, 4, 5, 6, 7, 8, 9, 10] : List Nat).length =
       List.replicate (64 - ([1, 2, 3, 4, 5, 6, 7, 8, 9, 10] : List Nat).length) 0) :=
  ⟨by decide, by decide,
   hid_write_padding "linux" [1, 2, 3, 4, 5, 6, 7, 8, 9, 10] (by decide) (by decide)⟩

/-- C3.  HID Windows quirk: for every payload, the buffer submitted on
the `"win32"` platform is one byte longer than on any non-Windows
platform, the extra byte sits at the front and is zero, and the rest is
identical. -/
theorem hid_windows_quirk (os : String) (data : List Nat) (hos : os ≠ "win32") :
    HID.writeBuffer "win32" data = 0 :: HID.writeBuffer os data ∧
    (HID.writeBuffer "win32" data).length = (HID.writeBuffer os data).length + 1 := by
  have hwin : HID.writeBuffer "win32" data =
      0 :: (data ++ List.replicate (PACKET_SIZE - data.length) 0) := by
    simp [HID.writeBuffer]
  rw [hwin, writeBuffer_not_win os data hos]
  exact ⟨rfl, by simp⟩

/-- C3 witness: the quirk at the concrete platform `"darwin"` and
payload `[5, 6]`. -/
theorem hid_windows_quirk_witness :
    ("darwin" ≠ "win32") ∧
    (HID.writeBuffer "win32" [5, 6] = 0 :: HID.writeBuffer "darwin" [5, 6] ∧
     (HID.writeBuffer "win32" [5, 6]).length =
       (HID.writeBuffer "darwin" [5, 6]).length + 1) :=
  ⟨by decide, hid_windows_quirk "darwin" [5, 6] (by decide)⟩

/-- A session state whose write endpoint advertises
`wMaxPacketSize = 64`, as a DAPLink probe's bulk interface does. -/
def exEndpointState : USB.State :=
  { deviceOpen := true,
    iface := { bInterfaceClass := 0xFF, interface := 0,
               endpoints := [⟨"in", 64⟩, ⟨"out", 64⟩] },
    endpointIn := some ⟨"in", 64⟩,
    endpointOut := some ⟨"out", 64⟩ }

/-- C1.  The buffer `USB.write` hands to the driver is
`arrayBuffer.slice(Math.min(byteLength, packetSize))`, which KEEPS the
bytes from that index on: a 10-byte payload on a 64-byte endpoint is
transmitted as the empty buffer (not the payload unchanged), and a
65-byte payload is transmitted as its final byte alone (not its first
64 bytes). -/
theorem usb_write_slice_bug :
    USB.writeCall exEndpointState [1, 2, 3, 4, 5, 6, 7, 8, 9, 10] =
      .outTransfer [] ∧
    USB.writeCall exEndpointState (List.replicate 64 7 ++ [9]) =
      .outTransfer [9] :=
  ⟨rfl, by simp [USB.writeCall, USB.sliceBuffer, exEndpointState]⟩

/-- The interface of class `0xFF` an example device advertises. -/
def exIface : USB.Interface :=
  { bInterfaceClass := 0xFF, interface := 2, endpoints := [] }

/-- An example device with exactly one interface of class `0xFF`
(declared after an unrelated HID-class interface). -/
def exDev : USB.Device :=
  { interfaces := [{ bInterfaceClass := 3, interface := 0, endpoints := [] },
                   exIface],
    setConfigError := none }

/-- C4.  USB open interface discovery: when the class filter matches
exactly one interface, `open` succeeds and selects that interface; when
it matches none, `open` fails with the `"No HID interfaces found."`
error instead of resolving. -/
theorem usb_open_discovery (device : USB.Device) (c : Nat) (iface : USB.Interface)
    (hcfg : device.setConfigError = none) :
    (device.interfaces.filter (fun i => i.bInterfaceClass == c) = [iface] →
      ∃ st, USB.openDevice device c = .ok st ∧ st.iface = iface) ∧
    (device.interfaces.filter (fun i => i.bInterfaceClass == c) = [] →
      USB.openDevice device c = .error "No HID interfaces found.") := by
  constructor
  · intro hone
    refine ⟨{ deviceOpen := true, iface := iface,
              endpointIn := (USB.selectEndpoints iface.endpoints).1,
              endpointOut := (USB.selectEndpoints iface.endpoints).2 }, ?_, rfl⟩
    unfold USB.openDevice
    rw [hcfg, hone]
  · intro hnone
    unfold USB.openDevice
    rw [hcfg, hnone]

/-- C4 witness: discovery on the concrete device `exDev` with the
default class filter `0xFF`. -/
theorem usb_open_discovery_witness :
    exDev.setConfigError = none ∧
    ((exDev.interfaces.filter (fun i => i.bInterfaceClass == 0xFF) = [exIface] →
      ∃ st, USB.openDevice exDev 0xFF = .ok st ∧ st.iface = exIface) ∧
     (exDev.interfaces.filter (fun i => i.bInterfaceClass == 0xFF) = [] →
      USB.openDevice exDev 0xFF = .error "No HID interfaces found.")) :=
  ⟨rfl, usb_open_discovery exDev 0xFF exIface rfl⟩

/-- An interface declaring two `"in"`-direction endpoints (64 then 512)
followed by one `"out"`-direction endpoint. -/
def exIfaceM : USB.Interface :=
  { bInterfaceClass := 0xFF, interface := 0,
    endpoints := [⟨"in", 64⟩, ⟨"in", 512⟩, ⟨"out", 64⟩] }

/-- A device advertising only `exIfaceM`. -/
def exDevM : USB.Device :=
  { interfaces := [exIfaceM], setConfigError := none }

/-- C5 counterexample: the first `"in"`-direction endpoint of
`exIfaceM` is `⟨"in", 64⟩`, yet `open` installs `⟨"in", 512⟩` as the
read endpoint — the `forEach` loop overwrites the slot on every match,
so the claim that the FIRST endpoint of the direction is installed is
false. -/
theorem usb_endpoint_selection_cex :
    (exIfaceM.endpoints.filter (fun e => e.direction == "in")).head? =
      some ⟨"in", 64⟩ ∧
    (USB.openDevice exDevM 0xFF).map USB.State.endpointIn =
      .ok (some ⟨"in", 512⟩) ∧
    (⟨"in", 512⟩ : USB.Endpoint) ≠ ⟨"in", 64⟩ :=
  ⟨rfl, rfl, by decide⟩

/-- C5 (amended).  USB endpoint selection: for every successful `open`,
the installed read endpoint is the LAST `"in"`-direction endpoint of
the selected interface in declaration order, and the installed write
endpoint is the LAST endpoint whose direction is not `"in"` (i.e. the
last `"out"`-direction endpoint); each matching endpoint overwrites the
slot in turn. -/
theorem usb_endpoint_selection_last (device : USB.Device) (c : Nat) (st : USB.State)
    (h : USB.openDevice device c = .ok st) :
    st.endpointIn =
      (st.iface.endpoints.filter (fun e => e.direction == "in")).getLast? ∧
    st.endpointOut =
      (st.iface.endpoints.filter (fun e => !(e.direction == "in"))).getLast? := by
  obtain ⟨-, hin, hout⟩ := openDevice_ok device c st h
  rw [hin, hout, selectEndpoints_eq]
  exact ⟨rfl, rfl⟩

/-- C5 witness: the amended selection rule at the concrete device
`exDevM`. -/
theorem usb_endpoint_selection_last_witness :
    USB.openDevice exDevM 0xFF =
      .ok { deviceOpen := true, iface := exIfaceM,
            endpointIn := some ⟨"in", 512⟩,
            endpointOut := some ⟨"out", 64⟩ } ∧
    ({ deviceOpen := true, iface := exIfaceM,
       endpointIn := some ⟨"in", 512⟩,
       endpointOut := some ⟨"out", 64⟩} : USB.State).endpointIn =
      (exIfaceM.endpoints.filter (fun e => e.direction == "in")).getLast? ∧
    ({ deviceOpen := true, iface := exIfaceM,
       endpointIn := some ⟨"in", 512⟩,
       endpointOut := some ⟨"out", 64⟩} : USB.State).endpointOut =
      (exIfaceM.endpoints.filter (fun e => !(e.direction == "in"))).getLast? := by
  refine ⟨rfl, ?_⟩
  have := usb_endpoint_selection_last exDevM 0xFF
    { deviceOpen := true, iface := exIfaceM,
      endpointIn := some ⟨"in", 512⟩, endpointOut := some ⟨"out", 64⟩ } rfl
  simpa using this

/-- A state with no cached endpoints: the Control-mode session an
endpoint-less interface yields. -/
def exCtlSt : USB.State :=
  { deviceOpen := true,
    iface := { bInterfaceClass := 0xFF, interface := 5, endpoints := [] },
    endpointIn := none, endpointOut := none }

/-- An opened HID instance on a non-Windows platform. -/
def exHIDState : HID.State :=
  { os := "linux", path := "/dev/hidraw0", device := some 1 }

/-- C6.  Write error propagation, uniform across backends: whenever the
driver call a `write` issues reports failure, both the HID and the USB
`write` reject with the driver's own error value instead of resolving. -/
theorem write_error_propagation (e : String) (stH : HID.State) (stU : USB.State)
    (dataH dataU : List Nat)
    (hidDriver : List Nat → Except String Nat)
    (usbDriver : USB.Request → Except String Unit)
    (h1 : hidDriver (HID.writeBuffer stH.os dataH) = .error e)
    (h2 : usbDriver (USB.writeCall stU dataU) = .error e) :
    HID.write stH dataH hidDriver = .error e ∧
    USB.write stU dataU usbDriver = .error e := by
  constructor
  · simp [HID.write, h1]
  · simp [USB.write, h2]

/-- C6 witness: a driver failing with `"boom"` makes both backends'
`write` reject with `"boom"` at concrete states and payloads. -/
theorem write_error_propagation_witness :
    ((fun _ : List Nat => (.error "boom" : Except String Nat))
        (HID.writeBuffer exHIDState.os [1, 2]) = .error "boom") ∧
    ((fun _ : USB.Request => (.error "boom" : Except String Unit))
        (USB.writeCall exCtlSt [1, 2]) = .error "boom") ∧
    (HID.write exHIDState [1, 2] (fun _ => .error "boom") = .error "boom" ∧
     USB.write exCtlSt [1, 2] (fun _ => .error "boom") = .error "boom") :=
  ⟨rfl, rfl,
   write_error_propagation "boom" exHIDState exCtlSt [1, 2] [1, 2]
     (fun _ => .error "boom") (fun _ => .error "boom") rfl rfl⟩

/-- C7 counterexample: after `USB.close` of a session with a discovered
read endpoint, the cached endpoint reference is still present — `close`
only closes the device handle and never discards the endpoint fields,
so the closed state claimed (cached endpoint references discarded) is
not reached. -/
theorem usb_close_retains_endpoints_cex :
    (USB.close { deviceOpen := true, iface := exIfaceM,
                 endpointIn := some ⟨"in", 512⟩,
                 endpointOut := some ⟨"out", 64⟩ }).map USB.State.endpointIn =
      .ok (some ⟨"in", 512⟩) ∧
    some (⟨"in", 512⟩ : USB.Endpoint) ≠ none :=
  ⟨rfl, by decide⟩

/-- C7 (amended).  Close idempotence: for every backend instance and
every prior state, calling `close` twice succeeds both times, never
raises an error, and leaves the instance in the same state as calling
it once; `HID.close` detaches the device handle, while `USB.close`
closes the device handle but retains the cached endpoint references
(they are reset only by the next `open`). -/
theorem close_idempotent (stH : HID.State) (stU : USB.State) :
    (HID.close stH = .ok { stH with device := none } ∧
     HID.close { stH with device := none } = .ok { stH with device := none }) ∧
    (USB.close stU = .ok { stU with deviceOpen := false } ∧
     USB.close { stU with deviceOpen := false } =
       .ok { stU with deviceOpen := false }) :=
  ⟨⟨rfl, rfl⟩, ⟨rfl, rfl⟩⟩

/-- C8.  USB Control-mode read parameters: in a session with no read
endpoint, `read` issues the device-to-host, class-scoped,
interface-recipient control transfer with request `GET_REPORT = 0x01`,
value `IN_REPORT = 0x0100`, index the interface number, length
`PACKET_SIZE = 64`, and on driver success resolves with the returned
buffer. -/
theorem usb_control_read (st : USB.State) (buf : List Nat)
    (h : st.endpointIn = none) :
    USB.readCall st =
      .controlIn
        (USB.LIBUSB_ENDPOINT_IN ||| USB.LIBUSB_REQUEST_TYPE_CLASS |||
          USB.LIBUSB_RECIPIENT_INTERFACE)
        USB.GET_REPORT USB.IN_REPORT st.iface.interface PACKET_SIZE ∧
    USB.GET_REPORT = 0x01 ∧ USB.IN_REPORT = 0x0100 ∧ PACKET_SIZE = 64 ∧
    USB.read st (fun _ => .ok buf) = .ok buf := by
  refine ⟨?_, rfl, rfl, rfl, rfl⟩
  simp [USB.readCall, h]

/-- C8 witness: the Control-mode read on the concrete endpoint-less
session `exCtlSt`, the driver returning a 64-byte buffer. -/
theorem usb_control_read_witness :
    exCtlSt.endpointIn = none ∧
    (USB.readCall exCtlSt =
      .controlIn
        (USB.LIBUSB_ENDPOINT_IN ||| USB.LIBUSB_REQUEST_TYPE_CLASS |||
          USB.LIBUSB_RECIPIENT_INTERFACE)
        USB.GET_REPORT USB.IN_REPORT exCtlSt.iface.interface PACKET_SIZE ∧
     USB.GET_REPORT = 0x01 ∧ USB.IN_REPORT = 0x0100 ∧ PACKET_SIZE = 64 ∧
     USB.read exCtlSt (fun _ => .ok (List.replicate 64 171)) =
       .ok (List.replicate 64 171)) :=
  ⟨rfl, usb_control_read exCtlSt (List.replicate 64 171) rfl⟩

/-- The state a successful `open` of `exDevM` yields. -/
def exStM : USB.State :=
  { deviceOpen := true, iface := exIfaceM,
    endpointIn := some ⟨"in", 512⟩, endpointOut := some ⟨"out", 64⟩ }

/-- C9.  Mode fixed at open: in a session opened on an interface with
at least one `"in"` and one `"out"` endpoint, every read and write of
the session goes through endpoint transfers; in a session opened on an
interface with zero endpoints, every read and write goes through
control transfers — however many operations the session issues, the
mode decided at `open` never changes. -/
theorem usb_mode_fixed (device : USB.Device) (c : Nat) (st : USB.State)
    (ops : List USB.Op) (h : USB.openDevice device c = .ok st) :
    ((∃ e ∈ st.iface.endpoints, e.direction = "in") →
     (∃ e ∈ st.iface.endpoints, e.direction = "out") →
      ∀ r ∈ USB.sessionCalls st ops, r.isEndpointTransfer = true) ∧
    (st.iface.endpoints = [] →
      ∀ r ∈ USB.sessionCalls st ops, r.isControlTransfer = true) := by
  obtain ⟨-, hin0, hout0⟩ := openDevice_ok device c st h
  have hin : st.endpointIn =
      (st.iface.endpoints.filter (fun e => e.direction == "in")).getLast? := by
    rw [hin0, selectEndpoints_eq]
  have hout : st.endpointOut =
      (st.iface.endpoints.filter (fun e => !(e.direction == "in"))).getLast? := by
    rw [hout0, selectEndpoints_eq]
  constructor
  · rintro ⟨ei, hei, hdi⟩ ⟨eo, heo, hdo⟩ r hr
    obtain ⟨a, ha⟩ : ∃ a, st.endpointIn = some a := by
      have hmem : ei ∈ st.iface.endpoints.filter (fun e => e.direction == "in") :=
        List.mem_filter.mpr ⟨hei, by rw [hdi]; rfl⟩
      rw [hin]
      cases hgl : (st.iface.endpoints.filter
          (fun e => e.direction == "in")).getLast? with
      | none =>
        exact absurd (List.getLast?_eq_none_iff.mp hgl) (List.ne_nil_of_mem hmem)
      | some a => exact ⟨a, rfl⟩
    obtain ⟨b, hb⟩ : ∃ b, st.endpointOut = some b := by
      have hmem : eo ∈ st.iface.endpoints.filter (fun e => !(e.direction == "in")) :=
        List.mem_filter.mpr ⟨heo, by rw [hdo]; rfl⟩
      rw [hout]
      cases hgl : (st.iface.endpoints.filter
          (fun e => !(e.direction == "in"))).getLast? with
      | none =>
        exact absurd (List.getLast?_eq_none_iff.mp hgl) (List.ne_nil_of_mem hmem)
      | some b => exact ⟨b, rfl⟩
    obtain ⟨op, _, rfl⟩ := List.mem_map.mp hr
    cases op with
    | read => simp [USB.readCall, ha, USB.Request.isEndpointTransfer]
    | write d => simp [USB.writeCall, hb, USB.Request.isEndpointTransfer]
  · intro hnil r hr
    have ha : st.endpointIn = none := by rw [hin, hnil]; rfl
    have hb : st.endpointOut = none := by rw [hout, hnil]; rfl
    obtain ⟨op, _, rfl⟩ := List.mem_map.mp hr
    cases op with
    | read => simp [USB.readCall, ha, USB.Request.isControlTransfer]
    | write d => simp [USB.writeCall, hb, USB.Request.isControlTransfer]

/-- C9 witness: the session opened on `exDevM` (one `"in"`, one `"out"`
endpoint) with a concrete read-then-write operation sequence. -/
theorem usb_mode_fixed_witness :
    USB.openDevice exDevM 0xFF = .ok exStM ∧
    (((∃ e ∈ exStM.iface.endpoints, e.direction = "in") →
      (∃ e ∈ exStM.iface.endpoints, e.direction = "out") →
       ∀ r ∈ USB.sessionCalls exStM [USB.Op.read, USB.Op.write [1, 2, 3]],
         r.isEndpointTransfer = true) ∧
     (exStM.iface.endpoints = [] →
       ∀ r ∈ USB.sessionCalls exStM [USB.Op.read, USB.Op.write [1, 2, 3]],
         r.isControlTransfer = true)) :=
  ⟨rfl, usb_mode_fixed exDevM 0xFF exStM [USB.Op.read, USB.Op.write [1, 2, 3]] rfl⟩

/-- C10.  Independent per-direction fallback: a read goes through the
bulk endpoint exactly when an `"in"`-direction endpoint was discovered
and falls back to a control transfer exactly when none was; a write
goes through the bulk endpoint exactly when an `"out"`-direction
endpoint was discovered and falls back to a control transfer exactly
when none was — the two directions decide independently within the same
session. -/
theorem usb_per_direction_dispatch (st : USB.State) (data : List Nat) :
    ((USB.readCall st).isEndpointTransfer = true ↔ st.endpointIn.isSome = true) ∧
    ((USB.writeCall st data).isEndpointTransfer = true ↔
      st.endpointOut.isSome = true) ∧
    ((USB.readCall st).isControlTransfer = true ↔ st.endpointIn = none) ∧
    ((USB.writeCall st data).isControlTransfer = true ↔ st.endpointOut = none) := by
  cases hin : st.endpointIn <;> cases hout : st.endpointOut <;>
    simp [USB.readCall, USB.writeCall, USB.Request.isEndpointTransfer,
      USB.Request.isControlTransfer, hin, hout]

end Dapjs
